import Mathlib

/-!
Verification of the CS4270 ALSA SoC codec driver
(sound/soc/codecs/cs4270.c, tiny6410 linux-3.2.53).

The definitions below are a shallow embedding of the driver's pure
configuration logic.  Registers are bytes modelled as `Nat`; the C
expression `x & ~mask` (on non-negative byte-ranged operands) is modelled
as `andNot x mask = x ^^^ (x &&& mask)`, which agrees with bitwise
and-not on every bit.  Bus I/O is modelled by an explicit record of the
values returned by `snd_soc_read` and the return codes of
`snd_soc_write`; each driver entry point returns its C return value
together with the list of register writes it attempted, in order.
-/

set_option maxRecDepth 20000

namespace CS4270

/-- Bitwise and-not on naturals: the C idiom `x & ~m`.  Since
`x &&& m` has only bits that are set in `x`, xor-ing it back out clears
exactly the bits of `m` that are set in `x`. -/
def andNot (x m : Nat) : Nat := x ^^^ (x &&& m)

/-- Mode Control register address (`CS4270_MODE`, cs4270.c line 50). -/
def CS4270_MODE : Nat := 0x03

/-- Serial Format register address (`CS4270_FORMAT`, line 51). -/
def CS4270_FORMAT : Nat := 0x04

/-- Mute Control register address (`CS4270_MUTE`, line 53). -/
def CS4270_MUTE : Nat := 0x06

def CS4270_MODE_SPEED_MASK : Nat := 0x30
def CS4270_MODE_1X : Nat := 0x00
def CS4270_MODE_2X : Nat := 0x10
def CS4270_MODE_4X : Nat := 0x20
def CS4270_MODE_SLAVE : Nat := 0x30
def CS4270_MODE_DIV_MASK : Nat := 0x0E
def CS4270_MODE_DIV1 : Nat := 0x00
def CS4270_MODE_DIV15 : Nat := 0x02
def CS4270_MODE_DIV2 : Nat := 0x04
def CS4270_MODE_DIV3 : Nat := 0x06
def CS4270_MODE_DIV4 : Nat := 0x08
def CS4270_FORMAT_DAC_MASK : Nat := 0x18
def CS4270_FORMAT_DAC_LJ : Nat := 0x00
def CS4270_FORMAT_DAC_I2S : Nat := 0x08
def CS4270_FORMAT_ADC_MASK : Nat := 0x01
def CS4270_FORMAT_ADC_LJ : Nat := 0x00
def CS4270_FORMAT_ADC_I2S : Nat := 0x01
def CS4270_MUTE_DAC_A : Nat := 0x01
def CS4270_MUTE_DAC_B : Nat := 0x02

/-- Modelled from the spec: the numeric `errno` value of `EINVAL` comes
from the kernel headers, which are not under src/; the spec maps both
`UnsupportedRatio` and `InvalidFormat` to this error return. -/
def EINVAL : Int := 22

/-- Modelled from the spec: the numeric encodings of the
`SND_SOC_DAIFMT_*` selectors come from the kernel header
include/sound/soc-dai.h of linux-3.2, which is not under src/.  The spec
names the supported formats I2S and LeftJustified and the supported
roles hostIsClockMaster (`CBS_CFS`) and deviceIsClockMaster
(`CBM_CFM`). -/
def SND_SOC_DAIFMT_I2S : Nat := 1

def SND_SOC_DAIFMT_LEFT_J : Nat := 3
def SND_SOC_DAIFMT_FORMAT_MASK : Nat := 0x000f
def SND_SOC_DAIFMT_MASTER_MASK : Nat := 0xf000
def SND_SOC_DAIFMT_CBM_CFM : Nat := 0x1000
def SND_SOC_DAIFMT_CBS_CFS : Nat := 0x4000

/-- One row of `struct cs4270_mode_ratios` (cs4270.c lines 172-176). -/
structure Cs4270ModeRatio where
  ratio : Nat
  speed_mode : Nat
  mclk : Nat
  deriving DecidableEq, Repr

/-- The clock-ratio table `cs4270_mode_ratios[]` (cs4270.c lines
178-190).  The `errata` flag models the build option
`CONFIG_SND_SOC_CS4270_VD33_ERRATA`: when it is set the divide-by-1.5
row for ratio 96 is compiled out. -/
def cs4270_mode_ratios (errata : Bool) : List Cs4270ModeRatio :=
  [⟨64, CS4270_MODE_4X, CS4270_MODE_DIV1⟩] ++
    (if errata then [] else [⟨96, CS4270_MODE_4X, CS4270_MODE_DIV15⟩]) ++
    [⟨128, CS4270_MODE_2X, CS4270_MODE_DIV1⟩,
     ⟨192, CS4270_MODE_4X, CS4270_MODE_DIV3⟩,
     ⟨256, CS4270_MODE_1X, CS4270_MODE_DIV1⟩,
     ⟨384, CS4270_MODE_2X, CS4270_MODE_DIV3⟩,
     ⟨512, CS4270_MODE_1X, CS4270_MODE_DIV2⟩,
     ⟨768, CS4270_MODE_1X, CS4270_MODE_DIV3⟩,
     ⟨1024, CS4270_MODE_1X, CS4270_MODE_DIV4⟩]

/-- The fields of `struct cs4270_private` that the configuration entry
points read or mutate (cs4270.c lines 129-138). -/
structure Cs4270State where
  mclk : Nat
  mode : Nat
  slave_mode : Nat
  manual_mute : Nat
  deriving DecidableEq, Repr

/-- The bus environment of one `cs4270_hw_params` call: the bytes
returned by `snd_soc_read` for the Mode Control and Format registers,
and the return codes of the two `snd_soc_write` calls (negative means
the I2C transaction failed). -/
structure Cs4270Regs where
  modeReg : Nat
  formatReg : Nat
  writeModeRet : Int
  writeFormatRet : Int
  deriving DecidableEq, Repr

/-- The spec's Register Composer: `(current & ~clearMask) | setBits`. -/
def composeRegister (current clearMask setBits : Nat) : Nat :=
  andNot current clearMask ||| setBits

/-- `cs4270_set_dai_sysclk` (cs4270.c lines 236-244): records `freq` in
the private data and returns 0.  No register is written, so the write
trace is empty. -/
def cs4270_set_dai_sysclk (s : Cs4270State) (freq : Nat) :
    Int × Cs4270State × List (Nat × Nat) :=
  (0, { s with mclk := freq }, [])

/-- `cs4270_set_dai_fmt` (cs4270.c lines 259-291).  The first switch
accepts I2S and LEFT_J and stores the format bits in `mode`; the second
switch accepts CBS_CFS (slave_mode := 1) and CBM_CFM (slave_mode := 0);
any other selector returns -EINVAL. -/
def cs4270_set_dai_fmt (s : Cs4270State) (format : Nat) : Int × Cs4270State :=
  let fmtBits := format &&& SND_SOC_DAIFMT_FORMAT_MASK
  if fmtBits = SND_SOC_DAIFMT_I2S ∨ fmtBits = SND_SOC_DAIFMT_LEFT_J then
    let s1 := { s with mode := fmtBits }
    let masterBits := format &&& SND_SOC_DAIFMT_MASTER_MASK
    if masterBits = SND_SOC_DAIFMT_CBS_CFS then (0, { s1 with slave_mode := 1 })
    else if masterBits = SND_SOC_DAIFMT_CBM_CFM then (0, { s1 with slave_mode := 0 })
    else (-EINVAL, s1)
  else (-EINVAL, s)

/-- `cs4270_hw_params` (cs4270.c lines 307-377).  Computes
`ratio = mclk / rate`, scans the ratio table for the first exact match,
then performs the two read-modify-write transactions on the Mode
Control and Format registers.  Returns the C return value and the list
of register writes attempted, in order. -/
def cs4270_hw_params (errata : Bool) (s : Cs4270State) (rate : Nat)
    (regs : Cs4270Regs) : Int × List (Nat × Nat) :=
  let ratio := s.mclk / rate
  match (cs4270_mode_ratios errata).find? (fun e => e.ratio == ratio) with
  | none => (-EINVAL, [])
  | some entry =>
      let reg1 :=
        (andNot regs.modeReg (CS4270_MODE_SPEED_MASK ||| CS4270_MODE_DIV_MASK)
            ||| entry.mclk)
          ||| (if s.slave_mode ≠ 0 then CS4270_MODE_SLAVE else entry.speed_mode)
      if regs.writeModeRet < 0 then (regs.writeModeRet, [(CS4270_MODE, reg1)])
      else
        let reg2 :=
          andNot regs.formatReg (CS4270_FORMAT_DAC_MASK ||| CS4270_FORMAT_ADC_MASK)
        if s.mode = SND_SOC_DAIFMT_I2S then
          (regs.writeFormatRet,
           [(CS4270_MODE, reg1),
            (CS4270_FORMAT, reg2 ||| (CS4270_FORMAT_DAC_I2S ||| CS4270_FORMAT_ADC_I2S))])
        else if s.mode = SND_SOC_DAIFMT_LEFT_J then
          (regs.writeFormatRet,
           [(CS4270_MODE, reg1),
            (CS4270_FORMAT, reg2 ||| (CS4270_FORMAT_DAC_LJ ||| CS4270_FORMAT_ADC_LJ))])
        else (-EINVAL, [(CS4270_MODE, reg1)])

/-- `cs4270_dai_mute` (cs4270.c lines 389-405): the value written back
to the MUTE register, composed from the byte `reg6` read from it.  On
mute both DAC mute bits are set; on unmute they are cleared and the
stored `manual_mute` bits are or-ed back in. -/
def cs4270_dai_mute (s : Cs4270State) (mute : Nat) (reg6 : Nat) : Nat :=
  if mute ≠ 0 then reg6 ||| (CS4270_MUTE_DAC_A ||| CS4270_MUTE_DAC_B)
  else andNot reg6 (CS4270_MUTE_DAC_A ||| CS4270_MUTE_DAC_B) ||| s.manual_mute

/-- `cs4270_soc_put_mute` (cs4270.c lines 421-433): stores the user's
manual mute request.  In the C source `left = !value[0]` and
`right = !value[1]`, so a DAC mute bit is recorded exactly when the
corresponding control value is 0. -/
def cs4270_soc_put_mute (s : Cs4270State) (leftValue rightValue : Int) :
    Cs4270State :=
  { s with manual_mute :=
      (if leftValue = 0 then CS4270_MUTE_DAC_A else 0) |||
      (if rightValue = 0 then CS4270_MUTE_DAC_B else 0) }

/-! Helper lemmas shared by the claim theorems. -/

/-- Bit-level description of `andNot`: it is bitwise and-not, i.e. the C
expression `x & ~m`. -/
theorem testBit_andNot (x m i : Nat) :
    (andNot x m).testBit i = (x.testBit i && !(m.testBit i)) := by
  simp only [andNot, Nat.testBit_xor, Nat.testBit_and]
  cases x.testBit i <;> cases m.testBit i <;> rfl

/-- `andNot` stays below a power of two bounding its first argument. -/
theorem andNot_lt_two_pow {x : Nat} (m : Nat) {n : Nat} (h : x < 2 ^ n) :
    andNot x m < 2 ^ n :=
  Nat.xor_lt_two_pow h (Nat.lt_of_le_of_lt Nat.and_le_left h)

/-- `List.find?` returns the first match: if no element of the prefix
list satisfies the predicate and `e` does, the scan stops at `e`. -/
theorem find_first_match {α : Type} (p : α → Bool) :
    ∀ (l1 : List α) (e : α) (l2 : List α),
      (∀ x ∈ l1, p x = false) → p e = true →
      (l1 ++ e :: l2).find? p = some e := by
  intro l1
  induction l1 with
  | nil =>
      intro e l2 _ hp
      simp [List.find?_cons_of_pos _ hp]
  | cons a t ih =>
      intro e l2 hfalse hp
      have ha : ¬ p a = true := by simp [hfalse a (by simp)]
      rw [List.cons_append, List.find?_cons_of_neg _ ha]
      exact ih e l2 (fun x hx => hfalse x (by simp [hx])) hp

/-- Field structure of the value composed for the Mode Control register
in `cs4270_hw_params`, for every byte read back and every table row:
the Ratio Select field carries exactly the row's divider bits, and the
Speed Mode field carries the slave pattern or the row's speed bits. -/
theorem hw_mode_reg_fields (b : Bool) :
    ∀ r, r < 256 → ∀ e ∈ cs4270_mode_ratios b,
      ((andNot r (CS4270_MODE_SPEED_MASK ||| CS4270_MODE_DIV_MASK) ||| e.mclk) |||
          CS4270_MODE_SLAVE) &&& CS4270_MODE_SPEED_MASK = CS4270_MODE_SLAVE ∧
      ((andNot r (CS4270_MODE_SPEED_MASK ||| CS4270_MODE_DIV_MASK) ||| e.mclk) |||
          CS4270_MODE_SLAVE) &&& CS4270_MODE_DIV_MASK = e.mclk ∧
      ((andNot r (CS4270_MODE_SPEED_MASK ||| CS4270_MODE_DIV_MASK) ||| e.mclk) |||
          e.speed_mode) &&& CS4270_MODE_SPEED_MASK = e.speed_mode ∧
      ((andNot r (CS4270_MODE_SPEED_MASK ||| CS4270_MODE_DIV_MASK) ||| e.mclk) |||
          e.speed_mode) &&& CS4270_MODE_DIV_MASK = e.mclk := by
  cases b <;> decide

/-- Field structure of the value composed for the MUTE register in
`cs4270_dai_mute`, for every byte read back and every stored manual
mute pattern below 4. -/
theorem mute_reg_fields :
    ∀ r, r < 256 → ∀ m, m < 4 →
      (andNot r (CS4270_MUTE_DAC_A ||| CS4270_MUTE_DAC_B) ||| m) &&&
          (CS4270_MUTE_DAC_A ||| CS4270_MUTE_DAC_B) = m ∧
      andNot (andNot r (CS4270_MUTE_DAC_A ||| CS4270_MUTE_DAC_B) ||| m)
          (CS4270_MUTE_DAC_A ||| CS4270_MUTE_DAC_B) =
        andNot r (CS4270_MUTE_DAC_A ||| CS4270_MUTE_DAC_B) ∧
      (r ||| (CS4270_MUTE_DAC_A ||| CS4270_MUTE_DAC_B)) &&&
          (CS4270_MUTE_DAC_A ||| CS4270_MUTE_DAC_B) =
        CS4270_MUTE_DAC_A ||| CS4270_MUTE_DAC_B := by
  decide

/-! Claim theorems. -/

/-- C2, counterexample: with clearMask 0 and setBits 1 the composed
value differs from the current value outside the (empty) mask, so the
preservation identity does not hold for every byte triple. -/
theorem composeRegister_outside_mask_counterexample :
    composeRegister 0 0 1 = 1 ∧
    ¬ andNot (composeRegister 0 0 1) 0 = andNot 0 0 := by decide

/-- C2, amended: `composeRegister` always computes
`(current & ~clearMask) | setBits`, a pure total function; whenever the
set bits lie inside the cleared mask (`bits &&& mask = bits`, which
holds at both call sites in `cs4270_hw_params`), the bits outside the
mask are preserved, and byte inputs yield a byte output. -/
theorem composeRegister_outside_mask (c mask bits : Nat)
    (h : bits &&& mask = bits) :
    andNot (composeRegister c mask bits) mask = andNot c mask ∧
    (c < 256 → bits < 256 → composeRegister c mask bits < 256) := by
  constructor
  · apply Nat.eq_of_testBit_eq
    intro i
    have hb : (bits.testBit i && mask.testBit i) = bits.testBit i := by
      have := congrArg (fun n => n.testBit i) h
      simpa [Nat.testBit_and] using this
    simp only [composeRegister, testBit_andNot, Nat.testBit_lor]
    cases hm : mask.testBit i <;> simp_all
  · intro hc hbits
    have h8 : (256 : Nat) = 2 ^ 8 := by norm_num
    rw [h8] at hc hbits ⊢
    exact Nat.or_lt_two_pow (andNot_lt_two_pow mask hc) hbits

/-- C2 witness: a concrete byte triple with the set bits inside the
mask, instantiating the amended theorem. -/
theorem composeRegister_outside_mask_witness :
    andNot (composeRegister 0x47 0x3E 0x12) 0x3E = andNot 0x47 0x3E ∧
    composeRegister 0x47 0x3E 0x12 < 256 := by
  have h := composeRegister_outside_mask 0x47 0x3E 0x12 (by decide)
  exact ⟨h.1, h.2 (by decide) (by decide)⟩

/-- C3: for mclk = 18432000 and rate = 192000 the integer ratio is 96;
without the VD33 errata option the scan selects the divide-by-1.5 row
(speed mode 4x, divider 1.5) and `cs4270_hw_params` programs it, while
with the errata option the same inputs fail with -EINVAL and write no
register. -/
theorem hw_params_ratio96_errata :
    18432000 / 192000 = 96 ∧
    (cs4270_mode_ratios false).find? (fun e => e.ratio == 96) =
      some ⟨96, CS4270_MODE_4X, CS4270_MODE_DIV15⟩ ∧
    (cs4270_mode_ratios true).find? (fun e => e.ratio == 96) = none ∧
    (cs4270_hw_params false ⟨18432000, SND_SOC_DAIFMT_I2S, 0, 0⟩ 192000
        ⟨0, 0, 0, 0⟩).2.head? =
      some (CS4270_MODE, CS4270_MODE_4X ||| CS4270_MODE_DIV15) ∧
    cs4270_hw_params true ⟨18432000, SND_SOC_DAIFMT_I2S, 0, 0⟩ 192000
        ⟨0, 0, 0, 0⟩ =
      (-EINVAL, []) := by decide

/-- C6: `cs4270_set_dai_sysclk` succeeds for every frequency (including
0), records the frequency as the stored MCLK, and changes nothing else:
mode, slave_mode and manual_mute are unchanged and no register is
written. -/
theorem set_dai_sysclk_records_freq (s : Cs4270State) (freq : Nat) :
    (cs4270_set_dai_sysclk s freq).1 = 0 ∧
    (cs4270_set_dai_sysclk s freq).2.1.mclk = freq ∧
    (cs4270_set_dai_sysclk s freq).2.1.mode = s.mode ∧
    (cs4270_set_dai_sysclk s freq).2.1.slave_mode = s.slave_mode ∧
    (cs4270_set_dai_sysclk s freq).2.1.manual_mute = s.manual_mute ∧
    (cs4270_set_dai_sysclk s freq).2.2 = [] := by
  simp [cs4270_set_dai_sysclk]

/-- C8, counterexample: the failure of `cs4270_hw_params` with a stored
MCLK of 0 is not a distinct error: it returns exactly the same value
(-EINVAL, no writes) as an ordinary unsupported-ratio failure (here
ratio 100), through the same no-matching-ratio path. -/
theorem hw_params_mclk_zero_counterexample :
    cs4270_hw_params false ⟨0, SND_SOC_DAIFMT_I2S, 0, 0⟩ 48000 ⟨0, 0, 0, 0⟩ =
      (-EINVAL, []) ∧
    cs4270_hw_params false ⟨4800000, SND_SOC_DAIFMT_I2S, 0, 0⟩ 48000
        ⟨0, 0, 0, 0⟩ =
      (-EINVAL, []) ∧
    (cs4270_hw_params false ⟨0, SND_SOC_DAIFMT_I2S, 0, 0⟩ 48000
        ⟨0, 0, 0, 0⟩).1 =
      (cs4270_hw_params false ⟨4800000, SND_SOC_DAIFMT_I2S, 0, 0⟩ 48000
        ⟨0, 0, 0, 0⟩).1 := by decide

/-- C8, amended: `cs4270_hw_params` called while the stored MCLK is
still 0 fails with -EINVAL — via the ordinary no-matching-ratio path,
not a distinct error — and programs no hardware register. -/
theorem hw_params_mclk_zero (errata : Bool) (s : Cs4270State) (rate : Nat)
    (regs : Cs4270Regs) (h0 : s.mclk = 0) :
    cs4270_hw_params errata s rate regs = (-EINVAL, []) := by
  have hfind : (cs4270_mode_ratios errata).find?
      (fun e => e.ratio == s.mclk / rate) = none := by
    rw [h0, Nat.zero_div]
    cases errata <;> decide
  simp [cs4270_hw_params, hfind]

/-- C8 witness: concrete call with MCLK 0. -/
theorem hw_params_mclk_zero_witness :
    cs4270_hw_params false ⟨0, SND_SOC_DAIFMT_I2S, 0, 0⟩ 44100
        ⟨5, 5, 0, 0⟩ = (-EINVAL, []) :=
  hw_params_mclk_zero false ⟨0, SND_SOC_DAIFMT_I2S, 0, 0⟩ 44100
    ⟨5, 5, 0, 0⟩ rfl

/-- C1: for every (mclk, rate) pair with rate > 0, `cs4270_hw_params`
computes the ratio by integer division `mclk / rate` and scans the
table in order for an exact match: if no row's ratio equals the
quotient the call fails with -EINVAL and writes no register; otherwise
the first matching row is selected and its mode bits are composed into
the Mode Control register write. -/
theorem hw_params_ratio_scan (errata : Bool) (s : Cs4270State) (rate : Nat)
    (regs : Cs4270Regs) (_hrate : 0 < rate) :
    ((∀ e ∈ cs4270_mode_ratios errata, e.ratio ≠ s.mclk / rate) →
        cs4270_hw_params errata s rate regs = (-EINVAL, [])) ∧
    (∀ l1 e l2, cs4270_mode_ratios errata = l1 ++ e :: l2 →
        (∀ x ∈ l1, x.ratio ≠ s.mclk / rate) → e.ratio = s.mclk / rate →
        (cs4270_hw_params errata s rate regs).2.head? =
          some (CS4270_MODE,
            (andNot regs.modeReg (CS4270_MODE_SPEED_MASK ||| CS4270_MODE_DIV_MASK)
                ||| e.mclk) |||
              (if s.slave_mode ≠ 0 then CS4270_MODE_SLAVE else e.speed_mode))) := by
  constructor
  · intro hnone
    have hfind : (cs4270_mode_ratios errata).find?
        (fun e => e.ratio == s.mclk / rate) = none := by
      rw [List.find?_eq_none]
      intro x hx
      simpa using hnone x hx
    simp [cs4270_hw_params, hfind]
  · intro l1 e l2 hsplit hl1 he
    have hfind : (cs4270_mode_ratios errata).find?
        (fun x => x.ratio == s.mclk / rate) = some e := by
      rw [hsplit]
      apply find_first_match
      · intro x hx
        simpa using hl1 x hx
      · simpa using he
    by_cases hw : regs.writeModeRet < 0
    · simp [cs4270_hw_params, hfind, hw]
    · by_cases h1 : s.mode = SND_SOC_DAIFMT_I2S
      · simp [cs4270_hw_params, hfind, hw, h1]
      · by_cases h2 : s.mode = SND_SOC_DAIFMT_LEFT_J
        · simp [cs4270_hw_params, hfind, hw, h2,
            show SND_SOC_DAIFMT_LEFT_J ≠ SND_SOC_DAIFMT_I2S from by decide]
        · simp [cs4270_hw_params, hfind, hw, h1, h2]

/-- C1 witness: mclk = 12288000 and rate = 48000 give ratio 256; the
fifth table row matches first and its bits reach the Mode Control
write. -/
theorem hw_params_ratio_scan_witness :
    (cs4270_hw_params false ⟨12288000, SND_SOC_DAIFMT_I2S, 0, 0⟩ 48000
        ⟨0, 0, 0, 0⟩).2.head? = some (CS4270_MODE, 0) := by
  have h := hw_params_ratio_scan false ⟨12288000, SND_SOC_DAIFMT_I2S, 0, 0⟩
    48000 ⟨0, 0, 0, 0⟩ (by decide)
  have h2 := h.2
    [⟨64, CS4270_MODE_4X, CS4270_MODE_DIV1⟩,
     ⟨96, CS4270_MODE_4X, CS4270_MODE_DIV15⟩,
     ⟨128, CS4270_MODE_2X, CS4270_MODE_DIV1⟩,
     ⟨192, CS4270_MODE_4X, CS4270_MODE_DIV3⟩]
    ⟨256, CS4270_MODE_1X, CS4270_MODE_DIV1⟩
    [⟨384, CS4270_MODE_2X, CS4270_MODE_DIV3⟩,
     ⟨512, CS4270_MODE_1X, CS4270_MODE_DIV2⟩,
     ⟨768, CS4270_MODE_1X, CS4270_MODE_DIV3⟩,
     ⟨1024, CS4270_MODE_1X, CS4270_MODE_DIV4⟩]
    (by decide) (by decide) (by decide)
  exact h2.trans (by decide)

/-- C4, counterexample: format value 1 has valid I2S format bits but an
invalid master/slave selector.  The call fails with -EINVAL, yet the
`mode` field of the private data has been overwritten, so the driver's
private state is not left unchanged. -/
theorem set_dai_fmt_invalid_counterexample :
    ((1 : Nat) &&& SND_SOC_DAIFMT_MASTER_MASK ≠ SND_SOC_DAIFMT_CBS_CFS ∧
     (1 : Nat) &&& SND_SOC_DAIFMT_MASTER_MASK ≠ SND_SOC_DAIFMT_CBM_CFM) ∧
    (cs4270_set_dai_fmt ⟨0, SND_SOC_DAIFMT_LEFT_J, 0, 0⟩ 1).1 = -EINVAL ∧
    (cs4270_set_dai_fmt ⟨0, SND_SOC_DAIFMT_LEFT_J, 0, 0⟩ 1).2 ≠
      (⟨0, SND_SOC_DAIFMT_LEFT_J, 0, 0⟩ : Cs4270State) := by decide

/-- C4, amended: a `cs4270_set_dai_fmt` call with an unsupported format
or master/slave selector fails with -EINVAL and leaves the ClockConfig
(mclk and slave_mode) and manual_mute unchanged; the whole private
state — including `mode` — is guaranteed unchanged only when the format
bits themselves are invalid (when the format bits are valid and only
the role is invalid, `mode` has already been updated). -/
theorem set_dai_fmt_invalid (s : Cs4270State) (format : Nat)
    (h : (format &&& SND_SOC_DAIFMT_FORMAT_MASK ≠ SND_SOC_DAIFMT_I2S ∧
          format &&& SND_SOC_DAIFMT_FORMAT_MASK ≠ SND_SOC_DAIFMT_LEFT_J) ∨
         (format &&& SND_SOC_DAIFMT_MASTER_MASK ≠ SND_SOC_DAIFMT_CBS_CFS ∧
          format &&& SND_SOC_DAIFMT_MASTER_MASK ≠ SND_SOC_DAIFMT_CBM_CFM)) :
    (cs4270_set_dai_fmt s format).1 = -EINVAL ∧
    (cs4270_set_dai_fmt s format).2.mclk = s.mclk ∧
    (cs4270_set_dai_fmt s format).2.slave_mode = s.slave_mode ∧
    (cs4270_set_dai_fmt s format).2.manual_mute = s.manual_mute ∧
    ((format &&& SND_SOC_DAIFMT_FORMAT_MASK ≠ SND_SOC_DAIFMT_I2S ∧
      format &&& SND_SOC_DAIFMT_FORMAT_MASK ≠ SND_SOC_DAIFMT_LEFT_J) →
        (cs4270_set_dai_fmt s format).2 = s) := by
  by_cases hfmt : format &&& SND_SOC_DAIFMT_FORMAT_MASK = SND_SOC_DAIFMT_I2S ∨
      format &&& SND_SOC_DAIFMT_FORMAT_MASK = SND_SOC_DAIFMT_LEFT_J
  · rcases h with ⟨hf1, hf2⟩ | ⟨hm1, hm2⟩
    · rcases hfmt with hf | hf
      · exact absurd hf hf1
      · exact absurd hf hf2
    · simp [cs4270_set_dai_fmt, hfmt, hm1, hm2]
      intro hf1 hf2
      rcases hfmt with hf | hf
      · exact absurd hf hf1
      · exact absurd hf hf2
  · simp [cs4270_set_dai_fmt, hfmt]

/-- C4 witness: format value 0 is invalid in both switches; the state
is fully unchanged. -/
theorem set_dai_fmt_invalid_witness :
    (cs4270_set_dai_fmt ⟨7, 1, 1, 2⟩ 0).1 = -EINVAL ∧
    (cs4270_set_dai_fmt ⟨7, 1, 1, 2⟩ 0).2 = (⟨7, 1, 1, 2⟩ : Cs4270State) := by
  have h := set_dai_fmt_invalid ⟨7, 1, 1, 2⟩ 0 (Or.inl (by decide))
  exact ⟨h.1, h.2.2.2.2 (by decide)⟩

/-- C5: for every valid format value, calling `cs4270_set_dai_fmt`
twice in succession yields exactly the same result (return value and
driver state) as calling it once. -/
theorem set_dai_fmt_idempotent (s : Cs4270State) (format : Nat)
    (h1 : format &&& SND_SOC_DAIFMT_FORMAT_MASK = SND_SOC_DAIFMT_I2S ∨
          format &&& SND_SOC_DAIFMT_FORMAT_MASK = SND_SOC_DAIFMT_LEFT_J)
    (h2 : format &&& SND_SOC_DAIFMT_MASTER_MASK = SND_SOC_DAIFMT_CBS_CFS ∨
          format &&& SND_SOC_DAIFMT_MASTER_MASK = SND_SOC_DAIFMT_CBM_CFM) :
    cs4270_set_dai_fmt (cs4270_set_dai_fmt s format).2 format =
      cs4270_set_dai_fmt s format := by
  rcases h1 with hf | hf <;> rcases h2 with hm | hm <;>
    simp [cs4270_set_dai_fmt, hf, hm, SND_SOC_DAIFMT_CBM_CFM,
      SND_SOC_DAIFMT_CBS_CFS]

/-- C5 witness: format 0x4001 (I2S, codec-slave) applied twice from a
blank state. -/
theorem set_dai_fmt_idempotent_witness :
    cs4270_set_dai_fmt (cs4270_set_dai_fmt ⟨9, 0, 0, 0⟩ 0x4001).2 0x4001 =
      cs4270_set_dai_fmt ⟨9, 0, 0, 0⟩ 0x4001 :=
  set_dai_fmt_idempotent ⟨9, 0, 0, 0⟩ 0x4001 (Or.inl (by decide))
    (Or.inl (by decide))

/-- C7: unmuting composes the MUTE register from the byte read back so
that the two DAC mute bits equal the stored manual mute bits (an
explicit manual mute survives automatic unmute) and every other MUTE
bit is unchanged; muting sets both DAC mute bits.  The last conjunct
records that the user-facing control (`cs4270_soc_put_mute`) only ever
stores patterns inside the two DAC mute bits, establishing the
hypothesis for every reachable state. -/
theorem dai_mute_preserves_manual_mute (s : Cs4270State) (reg6 : Nat)
    (h6 : reg6 < 256)
    (hm : s.manual_mute &&& (CS4270_MUTE_DAC_A ||| CS4270_MUTE_DAC_B) =
      s.manual_mute) :
    cs4270_dai_mute s 0 reg6 &&& (CS4270_MUTE_DAC_A ||| CS4270_MUTE_DAC_B) =
      s.manual_mute ∧
    andNot (cs4270_dai_mute s 0 reg6) (CS4270_MUTE_DAC_A ||| CS4270_MUTE_DAC_B) =
      andNot reg6 (CS4270_MUTE_DAC_A ||| CS4270_MUTE_DAC_B) ∧
    cs4270_dai_mute s 1 reg6 &&& (CS4270_MUTE_DAC_A ||| CS4270_MUTE_DAC_B) =
      CS4270_MUTE_DAC_A ||| CS4270_MUTE_DAC_B ∧
    ∀ l r : Int,
      (cs4270_soc_put_mute s l r).manual_mute &&&
          (CS4270_MUTE_DAC_A ||| CS4270_MUTE_DAC_B) =
        (cs4270_soc_put_mute s l r).manual_mute := by
  have hlt : s.manual_mute < 4 := by
    have hle : s.manual_mute &&& (CS4270_MUTE_DAC_A ||| CS4270_MUTE_DAC_B) ≤
        CS4270_MUTE_DAC_A ||| CS4270_MUTE_DAC_B := Nat.and_le_right
    rw [hm] at hle
    have h3 : (CS4270_MUTE_DAC_A ||| CS4270_MUTE_DAC_B) = 3 := by decide
    omega
  have hfields := mute_reg_fields reg6 h6 s.manual_mute hlt
  refine ⟨?_, ?_, ?_, ?_⟩
  · simpa [cs4270_dai_mute] using hfields.1
  · simpa [cs4270_dai_mute] using hfields.2.1
  · simpa [cs4270_dai_mute] using hfields.2.2
  · intro l r
    by_cases hl : l = 0 <;> by_cases hr : r = 0 <;>
      simp [cs4270_soc_put_mute, hl, hr] <;> decide

/-- C7 witness: manual mute on channel A (bit 0) stored, auto-mute and
polarity bits set in the read-back byte. -/
theorem dai_mute_preserves_manual_mute_witness :
    cs4270_dai_mute ⟨0, 0, 0, 1⟩ 0 0x24 &&&
        (CS4270_MUTE_DAC_A ||| CS4270_MUTE_DAC_B) = 1 ∧
    andNot (cs4270_dai_mute ⟨0, 0, 0, 1⟩ 0 0x24)
        (CS4270_MUTE_DAC_A ||| CS4270_MUTE_DAC_B) =
      andNot 0x24 (CS4270_MUTE_DAC_A ||| CS4270_MUTE_DAC_B) ∧
    cs4270_dai_mute ⟨0, 0, 0, 1⟩ 1 0x24 &&&
        (CS4270_MUTE_DAC_A ||| CS4270_MUTE_DAC_B) =
      CS4270_MUTE_DAC_A ||| CS4270_MUTE_DAC_B := by
  have h := dai_mute_preserves_manual_mute ⟨0, 0, 0, 1⟩ 0x24 (by decide)
    (by decide)
  exact ⟨h.1, h.2.1, h.2.2.1⟩

/-- C9: when a matching ratio is found but the Mode Control register
write fails, `cs4270_hw_params` returns that error code unchanged and
never attempts the Format register write. -/
theorem hw_params_mode_write_failure (errata : Bool) (s : Cs4270State)
    (rate : Nat) (regs : Cs4270Regs) (e : Cs4270ModeRatio)
    (hfind : (cs4270_mode_ratios errata).find?
      (fun x => x.ratio == s.mclk / rate) = some e)
    (herr : regs.writeModeRet < 0) :
    (cs4270_hw_params errata s rate regs).1 = regs.writeModeRet ∧
    ∀ v, (CS4270_FORMAT, v) ∉ (cs4270_hw_params errata s rate regs).2 := by
  simp [cs4270_hw_params, hfind, herr, CS4270_FORMAT, CS4270_MODE]

/-- C9 witness: ratio 256 matches but the Mode Control write fails with
-5 (-EIO); the call returns -5 and no Format write appears in the
trace. -/
theorem hw_params_mode_write_failure_witness :
    (cs4270_hw_params false ⟨12288000, SND_SOC_DAIFMT_I2S, 0, 0⟩ 48000
        ⟨0, 0, -5, 0⟩).1 = -5 ∧
    ∀ v, (CS4270_FORMAT, v) ∉
      (cs4270_hw_params false ⟨12288000, SND_SOC_DAIFMT_I2S, 0, 0⟩ 48000
        ⟨0, 0, -5, 0⟩).2 :=
  hw_params_mode_write_failure false ⟨12288000, SND_SOC_DAIFMT_I2S, 0, 0⟩
    48000 ⟨0, 0, -5, 0⟩ ⟨256, CS4270_MODE_1X, CS4270_MODE_DIV1⟩
    (by decide) (by decide)

/-- C10: whenever a ratio row is matched, the value composed for the
Mode Control register carries the row's divider bits in the Ratio
Select field; its Speed Mode field is the slave pattern 0x30 when the
stored slave-mode flag is set, and the row's speed-mode bits only in
master mode. -/
theorem hw_params_slave_speed_bits (errata : Bool) (s : Cs4270State)
    (rate : Nat) (regs : Cs4270Regs) (e : Cs4270ModeRatio)
    (hfind : (cs4270_mode_ratios errata).find?
      (fun x => x.ratio == s.mclk / rate) = some e)
    (hbyte : regs.modeReg < 256) :
    ∃ v, (cs4270_hw_params errata s rate regs).2.head? =
        some (CS4270_MODE, v) ∧
      v &&& CS4270_MODE_DIV_MASK = e.mclk ∧
      (s.slave_mode ≠ 0 → v &&& CS4270_MODE_SPEED_MASK = CS4270_MODE_SLAVE) ∧
      (s.slave_mode = 0 → v &&& CS4270_MODE_SPEED_MASK = e.speed_mode) := by
  have hmem : e ∈ cs4270_mode_ratios errata := List.mem_of_find?_eq_some hfind
  have hfields := hw_mode_reg_fields errata regs.modeReg hbyte e hmem
  refine ⟨(andNot regs.modeReg (CS4270_MODE_SPEED_MASK ||| CS4270_MODE_DIV_MASK)
      ||| e.mclk) |||
      (if s.slave_mode ≠ 0 then CS4270_MODE_SLAVE else e.speed_mode),
    ?_, ?_, ?_, ?_⟩
  · by_cases hw : regs.writeModeRet < 0
    · simp [cs4270_hw_params, hfind, hw]
    · by_cases h1 : s.mode = SND_SOC_DAIFMT_I2S
      · simp [cs4270_hw_params, hfind, hw, h1]
      · by_cases h2 : s.mode = SND_SOC_DAIFMT_LEFT_J
        · simp [cs4270_hw_params, hfind, hw, h2,
            show SND_SOC_DAIFMT_LEFT_J ≠ SND_SOC_DAIFMT_I2S from by decide]
        · simp [cs4270_hw_params, hfind, hw, h1, h2]
  · by_cases hs : s.slave_mode ≠ 0
    · simpa [hs] using hfields.2.1
    · simpa [hs] using hfields.2.2.2
  · intro hs
    simpa [hs] using hfields.1
  · intro hs
    simpa [hs] using hfields.2.2.1

/-- C10 witness: slave mode with ratio 256 and read-back byte 0xFF; the
composed value 0xF1 has Speed Mode field 0x30 and Ratio Select field
0x00. -/
theorem hw_params_slave_speed_bits_witness :
    ∃ v, (cs4270_hw_params false ⟨12288000, SND_SOC_DAIFMT_I2S, 1, 0⟩ 48000
        ⟨0xFF, 0, 0, 0⟩).2.head? = some (CS4270_MODE, v) ∧
      v &&& CS4270_MODE_DIV_MASK = CS4270_MODE_DIV1 ∧
      ((1 : Nat) ≠ 0 → v &&& CS4270_MODE_SPEED_MASK = CS4270_MODE_SLAVE) ∧
      ((1 : Nat) = 0 → v &&& CS4270_MODE_SPEED_MASK = CS4270_MODE_1X) :=
  hw_params_slave_speed_bits false ⟨12288000, SND_SOC_DAIFMT_I2S, 1, 0⟩ 48000
    ⟨0xFF, 0, 0, 0⟩ ⟨256, CS4270_MODE_1X, CS4270_MODE_DIV1⟩
    (by decide) (by decide)

end CS4270
